import Mathlib

/-!
Shallow embedding of the automated trading engine of
`src/auto_trading_strategy1.py` (class `AutoTradingEngine` with its
per-symbol `Position` life cycle).

Modelling conventions:
* Python `float` prices and rates are modelled as `ℚ`, Python `int`
  quantities and counters as `ℤ`.
* Broker-gateway calls (`_get_current_price`, `_place_order`,
  `_get_order_status`, account balance) are modelled as explicit inputs:
  `Option`/`Except` values standing for the dictionary the call returned
  (`none` / `.error` = the dictionary carried an `'error'` key or was empty).
* Wall-clock readings are passed in as explicit parameters (ISO strings for
  recorded timestamps, `Bool` flags for the comparisons the code performs
  against configured times).
* Log emission, notifications and DB persistence are side effects with no
  bearing on the state examined here and are dropped; Korean log/error
  message strings are kept only where a field of the state stores them, with
  numeric interpolation abbreviated.
-/

/-- `PositionState` enum of the source (`class PositionState(Enum)`). -/
inductive PositionState where
  | IDLE
  | WATCHING
  | ENTRY_PENDING
  | ENTERED
  | EXIT_PENDING
  | CLOSED
  | SKIPPED
  | DISQUALIFIED
  | ERROR
deriving DecidableEq, Repr

/-- `StrategyPhase` enum of the source. -/
inductive StrategyPhase where
  | IDLE
  | PREPARING
  | ENTRY_WINDOW
  | MONITORING
  | EOD_CLOSING
  | CLOSED
deriving DecidableEq, Repr

/-- The `Position` dataclass of the source.  Note: the dataclass defines
`order_id` and does NOT define any attribute named `entry_order_no`; the
field list here is the dataclass's field list. -/
structure Position where
  code : String
  name : String
  state : PositionState := PositionState.IDLE
  prev_close : ℚ := 0
  prev_high : ℚ := 0
  open_price : ℚ := 0
  entry_price : ℚ := 0
  current_price : ℚ := 0
  quantity : ℤ := 0
  unrealized_pnl : ℚ := 0
  unrealized_pnl_rate : ℚ := 0
  order_id : String := ""
  pending_quantity : ℤ := 0
  order_time : String := ""
  limit_order_price : ℚ := 0
  market_cap : ℚ := 0
  gap_confirms : ℤ := 0
  entry_time : String := ""
  exit_time : String := ""
  exit_reason : String := ""
  error_message : String := ""
  retry_count : ℤ := 0
deriving DecidableEq, Repr

/-- The subset of `StrategyState` that the order-reconciliation code
mutates: account / P&L numbers and the trade counters. -/
structure TradeStats where
  total_asset : ℚ := 0
  daily_pnl : ℚ := 0
  total_trades : ℤ := 0
  winning_trades : ℤ := 0
  losing_trades : ℤ := 0
deriving DecidableEq, Repr

/-- The `StrategyConfig` class: the strategy parameters read by the code
modelled here, as a structure so that theorems can quantify over them. -/
structure StrategyConfig where
  GAP_THRESHOLD_MIN : ℚ
  GAP_THRESHOLD_MAX : ℚ
  ENTRY_AT_PREV_CLOSE : Bool
  GAP_CONFIRM_COUNT : ℤ
  USE_LIMIT_ORDER_AT_OPEN : Bool
  USE_LIMIT_ORDER_AT_PREV_CLOSE : Bool
  USE_MARKET_FILTER : Bool
  TAKE_PROFIT_RATE : ℚ
  STOP_LOSS_RATE : ℚ
  MAX_DAILY_LOSS_RATE : ℚ
  MAX_POSITIONS : ℤ
  ORDER_SLIPPAGE_TICKS : ℤ
  ORDER_RETRY_COUNT : ℤ
  ENTRY_ORDER_CANCEL_AFTER_WINDOW : Bool
deriving DecidableEq, Repr

/-- The concrete values assigned in `class StrategyConfig`. -/
def strategyConfig : StrategyConfig where
  GAP_THRESHOLD_MIN := 2
  GAP_THRESHOLD_MAX := 5
  ENTRY_AT_PREV_CLOSE := true
  GAP_CONFIRM_COUNT := 2
  USE_LIMIT_ORDER_AT_OPEN := false
  USE_LIMIT_ORDER_AT_PREV_CLOSE := true
  USE_MARKET_FILTER := true
  TAKE_PROFIT_RATE := 10
  STOP_LOSS_RATE := -4
  MAX_DAILY_LOSS_RATE := -5
  MAX_POSITIONS := 5
  ORDER_SLIPPAGE_TICKS := 2
  ORDER_RETRY_COUNT := 3
  ENTRY_ORDER_CANCEL_AFTER_WINDOW := true

/-- The dictionary `_get_current_price` returns on success (the fields the
engine reads). `none` at a use site models the empty dict / error return. -/
structure PriceData where
  current_price : ℚ
  open_price : ℚ
  ask_price : ℚ
  prev_close : ℚ
deriving DecidableEq, Repr

/-- The dictionary `_get_order_status` returns when the order is found
(`exec_qty`, `exec_price`, `remain_qty`); `none` at a use site models the
`{'error': ...}` return. -/
structure OrderStatus where
  exec_qty : ℤ
  exec_price : ℚ
  remain_qty : ℤ
deriving DecidableEq, Repr

/-- An order as handed to `_place_order code quantity order_type price`
(`price = 0` means a market order, positive means a limit order). -/
structure OrderReq where
  side : String
  qty : ℤ
  price : ℚ
deriving DecidableEq, Repr

/-- `_get_tick_size` of the source: step function from price level to the
minimum price increment. -/
def tick_size (price : ℚ) : ℚ :=
  if price < 1000 then 1
  else if price < 5000 then 5
  else if price < 10000 then 10
  else if price < 50000 then 50
  else if price < 100000 then 100
  else if price < 500000 then 500
  else 1000

/-- Python `int(q)`: truncation toward zero. -/
def pyInt (q : ℚ) : ℤ := if 0 ≤ q then ⌊q⌋ else -⌊-q⌋

/-- `AutoTradingEngine.confirm_order`.  Inputs: the position, the mutable
stats of the engine state, the `_get_order_status` result for
`position.order_id` (`none` = error dict), and the current timestamp.
Returns the updated position, updated stats, and the function's boolean
result.  Mirrors the source exactly: an empty `order_id` or a status error
returns `False` without touching anything; the `ENTRY_PENDING` branch acts
only when `exec_qty > 0`; the `EXIT_PENDING` branch acts only when
`remain_qty == 0`; a win is counted when `pnl >= 0`. -/
def confirm_order (pos : Position) (stats : TradeStats)
    (status : Option OrderStatus) (now : String) :
    Position × TradeStats × Bool :=
  if pos.order_id = "" then (pos, stats, false)
  else
    match status with
    | none => (pos, stats, false)
    | some st =>
      if pos.state = PositionState.ENTRY_PENDING then
        if st.exec_qty > 0 then
          let pos' := { pos with
            quantity := st.exec_qty
            entry_price := st.exec_price
            entry_time := now
            pending_quantity := st.remain_qty }
          if st.remain_qty = 0 then
            ({ pos' with state := PositionState.ENTERED }, stats, true)
          else
            (pos', stats, false)
        else (pos, stats, false)
      else if pos.state = PositionState.EXIT_PENDING then
        if st.remain_qty = 0 then
          let pnl : ℚ := (st.exec_price - pos.entry_price) * (st.exec_qty : ℚ)
          let pnl_rate : ℚ :=
            if pos.entry_price > 0 then
              (st.exec_price - pos.entry_price) / pos.entry_price * 100
            else 0
          let pos' := { pos with
            state := PositionState.CLOSED
            exit_time := now
            unrealized_pnl := pnl
            unrealized_pnl_rate := pnl_rate }
          let stats' := { stats with
            total_trades := stats.total_trades + 1
            winning_trades :=
              if pnl ≥ 0 then stats.winning_trades + 1 else stats.winning_trades
            losing_trades :=
              if pnl ≥ 0 then stats.losing_trades else stats.losing_trades + 1
            daily_pnl := stats.daily_pnl + pnl }
          (pos', stats', true)
        else (pos, stats, false)
      else (pos, stats, false)

/-- The order-price policy inside `AutoTradingEngine.execute_entry`:
previous-close limit when `USE_LIMIT_ORDER_AT_PREV_CLOSE` and
`prev_close > 0`, else opening-price limit when `USE_LIMIT_ORDER_AT_OPEN`
and `open_price > 0`, else ask price plus `ORDER_SLIPPAGE_TICKS` tick
sizes. -/
def entry_order_price (cfg : StrategyConfig) (pos : Position)
    (pd : PriceData) : ℚ :=
  if cfg.USE_LIMIT_ORDER_AT_PREV_CLOSE ∧ pos.prev_close > 0 then
    pos.prev_close
  else if cfg.USE_LIMIT_ORDER_AT_OPEN ∧ pd.open_price > 0 then
    pd.open_price
  else
    pd.ask_price + (cfg.ORDER_SLIPPAGE_TICKS : ℚ) * tick_size pd.current_price

/-- The 1/N sizing inside `AutoTradingEngine.execute_entry`:
`int((total_asset / MAX_POSITIONS) / order_price)`. -/
def entry_quantity (cfg : StrategyConfig) (pos : Position)
    (total_asset : ℚ) (pd : PriceData) : ℤ :=
  pyInt ((total_asset / (cfg.MAX_POSITIONS : ℚ)) / entry_order_price cfg pos pd)

/-- `AutoTradingEngine.execute_entry`.  Inputs: the position, the list of all
tracked positions (used only to count `ENTERED` ones), the engine's
`total_asset`, the `_get_current_price` result, the `_place_order` result
(`.error msg` = dict with an `'error'` key, `.ok no` = success giving
`order_no`), and the current timestamp.  Returns the updated position, the
order request submitted (`none` when control never reached `_place_order`),
and the boolean result.  Mirrors the source: the state is set to
`ENTRY_PENDING` *before* submission; on a submission error `retry_count` is
incremented and the state is set to `SKIPPED` exactly when the incremented
count reaches `ORDER_RETRY_COUNT`, otherwise the position stays in
`ENTRY_PENDING`; on success `order_id`, `pending_quantity` and `order_time`
are recorded.  A zero `order_price` would raise `ZeroDivisionError` in
Python and land in the `except` clause that sets `ERROR`. -/
def execute_entry (cfg : StrategyConfig) (pos : Position)
    (positions : List Position) (total_asset : ℚ)
    (price : Option PriceData) (place : Except String String)
    (now : String) : Position × Option OrderReq × Bool :=
  match price with
  | none =>
    ({ pos with state := PositionState.SKIPPED,
                error_message := "현재가 조회 실패" }, none, false)
  | some pd =>
    if pd.current_price ≤ 0 then
      ({ pos with state := PositionState.SKIPPED,
                  error_message := "유효하지 않은 가격" }, none, false)
    else
      let order_price : ℚ := entry_order_price cfg pos pd
      if order_price = 0 then
        ({ pos with state := PositionState.ERROR,
                    error_message := "division by zero" }, none, false)
      else
        let quantity : ℤ := entry_quantity cfg pos total_asset pd
        if quantity ≤ 0 then
          ({ pos with state := PositionState.SKIPPED,
                      error_message := "매수 수량 부족" }, none, false)
        else
          let active_positions : ℤ :=
            ((positions.filter (fun p => p.state = PositionState.ENTERED)).length : ℤ)
          if active_positions ≥ cfg.MAX_POSITIONS then
            ({ pos with state := PositionState.SKIPPED,
                        error_message := "최대 포지션 수 도달" }, none, false)
          else
            let pos' := { pos with state := PositionState.ENTRY_PENDING,
                                   limit_order_price := order_price }
            let req : OrderReq := ⟨"buy", quantity, order_price⟩
            match place with
            | Except.error e =>
              let pos'' := { pos' with error_message := e,
                                       retry_count := pos'.retry_count + 1 }
              if pos''.retry_count ≥ cfg.ORDER_RETRY_COUNT then
                ({ pos'' with state := PositionState.SKIPPED }, some req, false)
              else
                (pos'', some req, false)
            | Except.ok order_no =>
              ({ pos' with order_id := order_no,
                           pending_quantity := quantity,
                           order_time := now }, some req, true)

/-- `AutoTradingEngine.execute_exit`.  Mirrors the source: nothing happens
when `quantity <= 0`; otherwise the state is set to `EXIT_PENDING` and
`exit_reason` recorded *before* submission, and the order submitted is a
market order (`price = 0`) for the full `position.quantity`.  On a
submission error only `error_message` and `retry_count` change — there is no
retry-budget check and no transition to `SKIPPED`; on success only
`order_id` is recorded (no `pending_quantity`, no `order_time`). -/
def execute_exit (pos : Position) (reason : String)
    (place : Except String String) : Position × Option OrderReq × Bool :=
  if pos.quantity ≤ 0 then (pos, none, false)
  else
    let pos' := { pos with state := PositionState.EXIT_PENDING,
                           exit_reason := reason }
    let req : OrderReq := ⟨"sell", pos.quantity, 0⟩
    match place with
    | Except.error e =>
      ({ pos' with error_message := e,
                   retry_count := pos'.retry_count + 1 }, some req, false)
    | Except.ok order_no =>
      ({ pos' with order_id := order_no }, some req, true)

/-- `AutoTradingEngine.check_exit_signal`.  Inputs: the position, the
`current_price` from `_get_current_price` (`none` = error/empty dict), and
the boolean value of the source's `now >= eod_start` comparison against
`EOD_SELL_START`.  Returns the updated position and the
`(should_exit, reason)` pair.  Priority order in the source: TP, then SL,
then EOD. -/
def check_exit_signal (cfg : StrategyConfig) (pos : Position)
    (price : Option ℚ) (eod_reached : Bool) :
    Position × Bool × String :=
  match price with
  | none => (pos, false, "")
  | some current_price =>
    let pos₁ := { pos with current_price := current_price }
    if pos₁.entry_price ≤ 0 ∨ current_price ≤ 0 then (pos₁, false, "")
    else
      let pnl_rate : ℚ :=
        (current_price - pos₁.entry_price) / pos₁.entry_price * 100
      let pos₂ := { pos₁ with
        unrealized_pnl := (current_price - pos₁.entry_price) * (pos₁.quantity : ℚ)
        unrealized_pnl_rate := pnl_rate }
      if pnl_rate ≥ cfg.TAKE_PROFIT_RATE then (pos₂, true, "TP")
      else if pnl_rate ≤ cfg.STOP_LOSS_RATE then (pos₂, true, "SL")
      else if eod_reached then (pos₂, true, "EOD")
      else (pos₂, false, "")

/-- `AutoTradingEngine._check_gap_disqualification`.  Returns the updated
position and the boolean result (`true` = disqualified).  Mirrors the
source: a failed price fetch or a non-positive `open_price`/`prev_close`
disqualifies; otherwise the position passes exactly when
`GAP_THRESHOLD_MIN ≤ gap_rate ≤ GAP_THRESHOLD_MAX` where
`gap_rate = (open_price - prev_close) / prev_close * 100`, every other case
setting `DISQUALIFIED`. -/
def check_gap_disqualification (cfg : StrategyConfig) (pos : Position)
    (price : Option PriceData) : Position × Bool :=
  match price with
  | none =>
    ({ pos with state := PositionState.DISQUALIFIED,
                error_message := "가격 조회 실패" }, true)
  | some pd =>
    if pos.prev_close ≤ 0 ∨ pd.open_price ≤ 0 then
      ({ pos with state := PositionState.DISQUALIFIED,
                  error_message := "유효하지 않은 가격" }, true)
    else
      let gap_rate : ℚ := (pd.open_price - pos.prev_close) / pos.prev_close * 100
      if cfg.GAP_THRESHOLD_MIN ≤ gap_rate ∧ gap_rate ≤ cfg.GAP_THRESHOLD_MAX then
        ({ pos with current_price := pd.current_price,
                    open_price := pd.open_price }, false)
      else if gap_rate < cfg.GAP_THRESHOLD_MIN then
        ({ pos with state := PositionState.DISQUALIFIED,
                    error_message := "갭 부족" }, true)
      else
        ({ pos with state := PositionState.DISQUALIFIED,
                    error_message := "갭 과열" }, true)

/-- The possible outcomes of the data gathering inside
`AutoTradingEngine._check_market_filter`: the KOSPI quote lookup may return
an error dict; with a quote in hand, the moving-average computation may
raise or find too little data; otherwise both the index level and the 5-day
moving average are available; finally the whole body may raise an
unexpected exception. -/
inductive MarketFilterInput where
  | quoteError
  | maUnavailable (kospi : ℚ)
  | ok (kospi ma5 : ℚ)
  | unexpectedError
deriving DecidableEq, Repr

/-- `true` when `_check_market_filter` could not be evaluated on this input
(any of its error/unavailability cases). -/
def MarketFilterInput.failed : MarketFilterInput → Bool
  | .quoteError => true
  | .maUnavailable _ => true
  | .ok _ _ => false
  | .unexpectedError => true

/-- `AutoTradingEngine._check_market_filter`.  Mirrors the source's control
flow: a quote error returns `True` (allow); a failed/insufficient
moving-average computation returns `True`; an unexpected exception is caught
and returns `True`; only with both numbers available does it return
`kospi > ma5`. -/
def check_market_filter : MarketFilterInput → Bool
  | .quoteError => true
  | .maUnavailable _ => true
  | .ok kospi ma5 => kospi > ma5
  | .unexpectedError => true

/-- `AutoTradingEngine.check_entry_signal`.  Inputs: the position, the
`_get_current_price` result, and the market-filter input.  Returns the
updated position and the boolean result.  Mirrors the source: bad price
data returns `False` untouched; the market filter (when
`USE_MARKET_FILTER`) can veto; with `ENTRY_AT_PREV_CLOSE`, a tick with
`current_price ≤ prev_close * 1.003` increments `gap_confirms` and the
signal fires once `gap_confirms ≥ GAP_CONFIRM_COUNT`. -/
def check_entry_signal (cfg : StrategyConfig) (pos : Position)
    (price : Option PriceData) (mf : MarketFilterInput) : Position × Bool :=
  match price with
  | none => (pos, false)
  | some pd =>
    if pos.prev_close ≤ 0 ∨ pd.current_price ≤ 0 then (pos, false)
    else
      let pos₁ := { pos with current_price := pd.current_price }
      if cfg.USE_MARKET_FILTER ∧ check_market_filter mf = false then
        (pos₁, false)
      else if cfg.ENTRY_AT_PREV_CLOSE then
        let tolerance : ℚ := pos₁.prev_close * (3 / 1000)
        if pd.current_price ≤ pos₁.prev_close + tolerance then
          let pos₂ := { pos₁ with gap_confirms := pos₁.gap_confirms + 1 }
          if pos₂.gap_confirms ≥ cfg.GAP_CONFIRM_COUNT then (pos₂, true)
          else (pos₂, false)
        else (pos₁, false)
      else (pos₁, false)

/-- The `WATCHING` branch of `AutoTradingEngine._phase_entry_window`: first
`_check_gap_disqualification`; a disqualified position is skipped
(`continue`); otherwise `check_entry_signal`, and `execute_entry` when it
fires.  Each helper performs its own `_get_current_price` call, hence the
separate price inputs. -/
def phase_entry_window_watch_step (cfg : StrategyConfig) (pos : Position)
    (positions : List Position) (total_asset : ℚ)
    (gap_price sig_price entry_price_data : Option PriceData)
    (mf : MarketFilterInput) (place : Except String String)
    (now : String) : Position :=
  let gapResult := check_gap_disqualification cfg pos gap_price
  if gapResult.2 then gapResult.1
  else
    let sigResult := check_entry_signal cfg gapResult.1 sig_price mf
    if sigResult.2 then
      (execute_entry cfg sigResult.1 positions total_asset entry_price_data place now).1
    else sigResult.1

/-- The per-position body of `AutoTradingEngine._phase_entry_window`.
Inputs include the two wall-clock comparisons the source makes for an
`ENTRY_PENDING` position: `now >= cancel_time` (09:30, `ENTRY_CANCEL_TIME`)
and the `_check_pending_timeout` result (`now >= ENTRY_END_TIME`, 15:20).
In the cancel-time branch the source calls
`_cancel_order(position.order_id, ...)` and tests its returned dict for
truthiness; every return value of `_cancel_order` is a non-empty dict, so
that test always succeeds and the position is marked `SKIPPED`.  In the
timeout branch the source evaluates `position.entry_order_no` — an
attribute the `Position` dataclass does not define — so Python raises
`AttributeError` there; the handler has no enclosing `try`, so the
exception escapes it (modelled as `Except.error`). -/
def phase_entry_window_step (cfg : StrategyConfig) (pos : Position)
    (stats : TradeStats) (positions : List Position)
    (now_ge_cancel_time pending_timeout : Bool)
    (gap_price sig_price entry_price_data : Option PriceData)
    (mf : MarketFilterInput) (place : Except String String)
    (status : Option OrderStatus) (now : String) :
    Except String (Position × TradeStats) :=
  if pos.state = PositionState.WATCHING then
    Except.ok (phase_entry_window_watch_step cfg pos positions
      stats.total_asset gap_price sig_price entry_price_data mf place now, stats)
  else if pos.state = PositionState.ENTRY_PENDING then
    if now_ge_cancel_time ∧ pos.order_time ≠ "" then
      Except.ok ({ pos with state := PositionState.SKIPPED,
                            error_message := "09:30 미체결 취소" }, stats)
    else if pending_timeout then
      Except.error "AttributeError: Position has no attribute entry_order_no"
    else
      let r := confirm_order pos stats status now
      Except.ok (r.1, r.2.1)
  else Except.ok (pos, stats)

/-- The body of the first loop of `AutoTradingEngine._phase_monitoring`
(the `ENTRY_ORDER_CANCEL_AFTER_WINDOW` block, entered once the phase turns
`MONITORING`): for every position in `ENTRY_PENDING` the source evaluates
`position.entry_order_no` as the first argument of `_cancel_order`.  The
`Position` dataclass defines `order_id`, not `entry_order_no`, so the
attribute lookup raises `AttributeError` before any cancellation happens;
`_phase_monitoring` has no `try`/`except`, so the exception propagates out
of the phase handler and the position keeps its state. -/
def phase_monitoring_cancel_step (cfg : StrategyConfig) (pos : Position) :
    Except String Position :=
  if cfg.ENTRY_ORDER_CANCEL_AFTER_WINDOW ∧ pos.state = PositionState.ENTRY_PENDING then
    Except.error "AttributeError: Position has no attribute entry_order_no"
  else Except.ok pos

/-- The body of the second (per-position) loop of
`AutoTradingEngine._phase_monitoring`: poll pending entries, evaluate exit
signals for `ENTERED` positions (executing the exit when one fires), poll
pending exits; other states untouched. -/
def phase_monitoring_position_step (cfg : StrategyConfig) (pos : Position)
    (stats : TradeStats) (status : Option OrderStatus)
    (exit_price : Option ℚ) (eod_reached : Bool)
    (place : Except String String) (now : String) : Position × TradeStats :=
  if pos.state = PositionState.ENTRY_PENDING then
    let r := confirm_order pos stats status now
    (r.1, r.2.1)
  else if pos.state = PositionState.ENTERED then
    let sig := check_exit_signal cfg pos exit_price eod_reached
    if sig.2.1 then ((execute_exit sig.1 sig.2.2 place).1, stats)
    else (sig.1, stats)
  else if pos.state = PositionState.EXIT_PENDING then
    let r := confirm_order pos stats status now
    (r.1, r.2.1)
  else (pos, stats)

/-- The daily-loss circuit breaker at the end of
`AutoTradingEngine._phase_monitoring`, as its effect on one position: when
`total_asset > 0` and the day's loss rate has breached
`MAX_DAILY_LOSS_RATE`, every `WATCHING` position becomes `SKIPPED`. -/
def phase_monitoring_daily_loss_step (cfg : StrategyConfig)
    (stats : TradeStats) (pos : Position) : Position :=
  if stats.total_asset > 0 ∧
      stats.daily_pnl / stats.total_asset * 100 ≤ cfg.MAX_DAILY_LOSS_RATE ∧
      pos.state = PositionState.WATCHING then
    { pos with state := PositionState.SKIPPED,
               error_message := "일일 손실 한도 도달" }
  else pos

/-- The per-position body of `AutoTradingEngine._phase_eod_closing`:
force-exit every `ENTERED` position with reason `"EOD"`, keep polling
pending exits. -/
def phase_eod_closing_step (pos : Position) (stats : TradeStats)
    (status : Option OrderStatus) (place : Except String String)
    (now : String) : Position × TradeStats :=
  if pos.state = PositionState.ENTERED then
    ((execute_exit pos "EOD" place).1, stats)
  else if pos.state = PositionState.EXIT_PENDING then
    let r := confirm_order pos stats status now
    (r.1, r.2.1)
  else (pos, stats)

/-- One entry of the `holdings` dict built by `_get_account_balance`. -/
structure Holding where
  name : String
  quantity : ℤ
  avg_price : ℚ
  current_price : ℚ
  profit_loss : ℚ
  profit_rate : ℚ
deriving DecidableEq, Repr

/-- The per-position synchronisation of `AutoTradingEngine.refresh_positions`
for a code already tracked: copy the account-balance holding onto the
position, then force the state to `ENTERED` whenever `quantity > 0` and the
state is neither `ENTERED` nor `EXIT_PENDING` — regardless of the previous
state, terminal or not. -/
def refresh_position_sync (pos : Position) (holding : Holding) : Position :=
  let pos₁ := { pos with
    quantity := holding.quantity
    current_price := holding.current_price
    entry_price := holding.avg_price
    unrealized_pnl := holding.profit_loss
    unrealized_pnl_rate := holding.profit_rate }
  if pos₁.quantity > 0 ∧ pos₁.state ≠ PositionState.ENTERED ∧
      pos₁.state ≠ PositionState.EXIT_PENDING then
    { pos₁ with state := PositionState.ENTERED }
  else pos₁

/-- The position update performed by `AutoTradingEngine.manual_buy` after a
successful order placement (the manual-override re-entry path). -/
def manual_buy_position_update (pos : Position) (order_no : String)
    (quantity : ℤ) : Position :=
  { pos with state := PositionState.ENTRY_PENDING,
             order_id := order_no,
             pending_quantity := quantity }

/-- The position update performed by `AutoTradingEngine.manual_sell` after a
successful order placement. -/
def manual_sell_position_update (pos : Position) (order_no : String) : Position :=
  { pos with state := PositionState.EXIT_PENDING,
             exit_reason := "MANUAL",
             order_id := order_no }

/-- The terminal states of the position state machine (`CLOSED`,
`DISQUALIFIED`, `SKIPPED`, `ERROR`). -/
def terminalState (s : PositionState) : Bool :=
  s = PositionState.CLOSED ∨ s = PositionState.DISQUALIFIED ∨
  s = PositionState.SKIPPED ∨ s = PositionState.ERROR

/-- The quantity invariant on a position as the code actually maintains it:
both quantities non-negative, and a position holding shares is in
`ENTRY_PENDING` (partial entry fill), `ENTERED`, `EXIT_PENDING` or
`CLOSED`. -/
def PosQuantityInv (p : Position) : Prop :=
  0 ≤ p.quantity ∧ 0 ≤ p.pending_quantity ∧
  (0 < p.quantity →
    p.state = PositionState.ENTRY_PENDING ∨ p.state = PositionState.ENTERED ∨
    p.state = PositionState.EXIT_PENDING ∨ p.state = PositionState.CLOSED)

/-- A broker order-status answer with non-negative quantities (what the
KIS API returns for `tot_ccld_qty` / `rmn_qty`). -/
def StatusNonneg (status : Option OrderStatus) : Prop :=
  ∀ st, status = some st → 0 ≤ st.exec_qty ∧ 0 ≤ st.remain_qty

/-- Sample position awaiting an entry fill, for concrete evaluations. -/
def samplePendingPos : Position :=
  { code := "005930", name := "샘플", state := PositionState.ENTRY_PENDING,
    order_id := "0001", prev_close := 1000 }

/-- Sample strategy stats, for concrete evaluations. -/
def sampleStats : TradeStats := { total_asset := 1000000 }

/-- Sample watched position, for concrete evaluations. -/
def sampleWatchPos : Position :=
  { code := "005930", name := "샘플", state := PositionState.WATCHING,
    prev_close := 1000 }

/-- Sample entered position (bought 10 shares at 1000), for concrete
evaluations. -/
def sampleEnteredPos : Position :=
  { code := "005930", name := "샘플", state := PositionState.ENTERED,
    prev_close := 990, entry_price := 1000, quantity := 10,
    order_id := "0001" }

/-- Sample position awaiting an exit fill (10 shares at entry 1000), for
concrete evaluations. -/
def sampleExitPos : Position :=
  { code := "005930", name := "샘플", state := PositionState.EXIT_PENDING,
    prev_close := 990, entry_price := 1000, quantity := 5,
    order_id := "0002" }

/-- Sample closed position, for concrete evaluations. -/
def sampleClosedPos : Position :=
  { code := "005930", name := "샘플", state := PositionState.CLOSED,
    prev_close := 990, entry_price := 1000 }

/-- Sample price data: open 1010 on prev close 1000 (a +1% gap). -/
def samplePd : PriceData :=
  { current_price := 1010, open_price := 1010, ask_price := 1011,
    prev_close := 1000 }

theorem confirm_order_of_not_pending (pos : Position) (stats : TradeStats)
    (status : Option OrderStatus) (now : String)
    (h1 : pos.state ≠ PositionState.ENTRY_PENDING)
    (h2 : pos.state ≠ PositionState.EXIT_PENDING) :
    confirm_order pos stats status now = (pos, stats, false) := by
  unfold confirm_order
  cases status <;> simp [h1, h2]

theorem entry_window_step_inert (cfg : StrategyConfig) (pos : Position)
    (stats : TradeStats) (positions : List Position)
    (b1 b2 : Bool) (gp sp ep : Option PriceData) (mf : MarketFilterInput)
    (place : Except String String) (status : Option OrderStatus) (now : String)
    (h1 : pos.state ≠ PositionState.WATCHING)
    (h2 : pos.state ≠ PositionState.ENTRY_PENDING) :
    phase_entry_window_step cfg pos stats positions b1 b2 gp sp ep mf place
      status now = Except.ok (pos, stats) := by
  unfold phase_entry_window_step
  simp [h1, h2]

theorem monitoring_cancel_step_inert (cfg : StrategyConfig) (pos : Position)
    (h : pos.state ≠ PositionState.ENTRY_PENDING) :
    phase_monitoring_cancel_step cfg pos = Except.ok pos := by
  unfold phase_monitoring_cancel_step
  simp [h]

theorem monitoring_position_step_inert (cfg : StrategyConfig) (pos : Position)
    (stats : TradeStats) (status : Option OrderStatus) (exit_price : Option ℚ)
    (eod_reached : Bool) (place : Except String String) (now : String)
    (h1 : pos.state ≠ PositionState.ENTRY_PENDING)
    (h2 : pos.state ≠ PositionState.ENTERED)
    (h3 : pos.state ≠ PositionState.EXIT_PENDING) :
    phase_monitoring_position_step cfg pos stats status exit_price eod_reached
      place now = (pos, stats) := by
  unfold phase_monitoring_position_step
  simp [h1, h2, h3]

theorem daily_loss_step_inert (cfg : StrategyConfig) (stats : TradeStats)
    (pos : Position) (h : pos.state ≠ PositionState.WATCHING) :
    phase_monitoring_daily_loss_step cfg stats pos = pos := by
  unfold phase_monitoring_daily_loss_step
  simp [h]

theorem eod_closing_step_inert (pos : Position) (stats : TradeStats)
    (status : Option OrderStatus) (place : Except String String) (now : String)
    (h1 : pos.state ≠ PositionState.ENTERED)
    (h2 : pos.state ≠ PositionState.EXIT_PENDING) :
    phase_eod_closing_step pos stats status place now = (pos, stats) := by
  unfold phase_eod_closing_step
  simp [h1, h2]

/-- C3 (counterexample): the claim says an `ENTRY_PENDING` position with no
`orderId` is reverted to `WATCHING` by the next `confirm_order` call.  On
this concrete such position, `confirm_order` leaves everything unchanged
and the state stays `ENTRY_PENDING`, not `WATCHING`. -/
theorem C3_counterexample :
    (confirm_order { samplePendingPos with order_id := "" } sampleStats
        (some ⟨5, 1000, 0⟩) "2025-01-02T09:01:00")
      = ({ samplePendingPos with order_id := "" }, sampleStats, false) ∧
    (confirm_order { samplePendingPos with order_id := "" } sampleStats
        (some ⟨5, 1000, 0⟩) "2025-01-02T09:01:00").1.state
      = PositionState.ENTRY_PENDING := by
  refine ⟨rfl, rfl⟩

/-- C3 (amended): `confirm_order` on a position without an `orderId` —
whatever its state, including an orphaned `ENTRY_PENDING` — is a no-op
returning `False`; the position keeps its state (there is no self-healing
revert to `WATCHING`). -/
theorem C3_amended (pos : Position) (stats : TradeStats)
    (status : Option OrderStatus) (now : String)
    (h : pos.order_id = "") :
    confirm_order pos stats status now = (pos, stats, false) := by
  unfold confirm_order
  simp [h]

/-- C3 witness: the amended theorem at a concrete orphaned position. -/
theorem C3_amended_witness :
    confirm_order { samplePendingPos with order_id := "" } sampleStats none "t"
      = ({ samplePendingPos with order_id := "" }, sampleStats, false) :=
  C3_amended { samplePendingPos with order_id := "" } sampleStats none "t" rfl

/-- C4 (code bug): once the phase turns `MONITORING`, the handler's
cancel-after-window block evaluates `position.entry_order_no` for every
`ENTRY_PENDING` position; the `Position` dataclass defines no such
attribute, so the handler raises `AttributeError` instead of cancelling the
order, and the position never transitions to `SKIPPED` there. -/
theorem C4_theorem (cfg : StrategyConfig) (pos : Position)
    (hc : cfg.ENTRY_ORDER_CANCEL_AFTER_WINDOW = true)
    (hs : pos.state = PositionState.ENTRY_PENDING) :
    phase_monitoring_cancel_step cfg pos
      = Except.error "AttributeError: Position has no attribute entry_order_no" := by
  unfold phase_monitoring_cancel_step
  simp [hc, hs]

/-- C4 witness: the failing input evaluated concretely — an `ENTRY_PENDING`
position under the default configuration. -/
theorem C4_witness :
    phase_monitoring_cancel_step strategyConfig samplePendingPos
      = Except.error "AttributeError: Position has no attribute entry_order_no" :=
  C4_theorem strategyConfig samplePendingPos rfl rfl

/-- C10: on every error or data-unavailability path (index quote lookup
fails, moving-average computation fails or has too little data, unexpected
exception), `_check_market_filter` returns `True` (allow entry), and
`check_entry_signal` on such a filter input behaves exactly as it would
with the market filter disabled — an entry signal is never suppressed
solely because the filter could not be evaluated. -/
theorem C10_theorem (mf : MarketFilterInput) (hf : mf.failed = true) :
    check_market_filter mf = true ∧
    ∀ (cfg : StrategyConfig) (pos : Position) (price : Option PriceData),
      check_entry_signal cfg pos price mf
        = check_entry_signal { cfg with USE_MARKET_FILTER := false } pos price mf := by
  have hmf : check_market_filter mf = true := by
    cases mf with
    | quoteError => rfl
    | maUnavailable k => rfl
    | ok k m => simp [MarketFilterInput.failed] at hf
    | unexpectedError => rfl
  refine ⟨hmf, ?_⟩
  intro cfg pos price
  unfold check_entry_signal
  cases price <;> simp [hmf]

/-- C10 witness: the theorem at the concrete quote-error input. -/
theorem C10_witness :
    check_market_filter MarketFilterInput.quoteError = true ∧
    check_entry_signal strategyConfig sampleWatchPos (some samplePd)
        MarketFilterInput.quoteError
      = check_entry_signal { strategyConfig with USE_MARKET_FILTER := false }
          sampleWatchPos (some samplePd) MarketFilterInput.quoteError :=
  ⟨(C10_theorem MarketFilterInput.quoteError rfl).1,
   (C10_theorem MarketFilterInput.quoteError rfl).2 strategyConfig
     sampleWatchPos (some samplePd)⟩

/-- C6: for an `ENTERED` position with a positive entry price and a valid
current price, `check_exit_signal` returns at most one exit reason per
tick, checked in the priority order TP, SL, EOD: TP fires iff
`pnl_rate ≥ TAKE_PROFIT_RATE`; otherwise SL fires iff
`pnl_rate ≤ STOP_LOSS_RATE`; otherwise EOD fires iff the wall clock has
entered the EOD window, where
`pnl_rate = (current - entry) / entry * 100`. -/
theorem C6_theorem (cfg : StrategyConfig) (pos : Position) (current : ℚ)
    (eod_reached : Bool) (r : Position × Bool × String) (pnl_rate : ℚ)
    (hr : r = check_exit_signal cfg pos (some current) eod_reached)
    (hrate : pnl_rate = (current - pos.entry_price) / pos.entry_price * 100)
    (hentry : 0 < pos.entry_price) (hcur : 0 < current) :
    (r.2 = (true, "TP") ∨ r.2 = (true, "SL") ∨ r.2 = (true, "EOD") ∨
      r.2 = (false, "")) ∧
    (r.2 = (true, "TP") ↔ cfg.TAKE_PROFIT_RATE ≤ pnl_rate) ∧
    (pnl_rate < cfg.TAKE_PROFIT_RATE →
      (r.2 = (true, "SL") ↔ pnl_rate ≤ cfg.STOP_LOSS_RATE)) ∧
    (pnl_rate < cfg.TAKE_PROFIT_RATE → cfg.STOP_LOSS_RATE < pnl_rate →
      (r.2 = (true, "EOD") ↔ eod_reached = true)) := by
  subst hr hrate
  have hne : ¬(pos.entry_price ≤ 0 ∨ current ≤ 0) := by
    push_neg
    exact ⟨hentry, hcur⟩
  unfold check_exit_signal
  simp only [hne, if_false]
  split_ifs with h1 h2 h3 <;> constructor <;> simp_all

/-- C6 witness: entry at 1000, current 1100 (+10%), outside the EOD window:
the theorem's TP clause fires. -/
theorem C6_witness :
    (0:ℚ) < sampleEnteredPos.entry_price ∧ (0:ℚ) < 1100 ∧
    (check_exit_signal strategyConfig sampleEnteredPos (some 1100) false).2
      = (true, "TP") := by
  refine ⟨by norm_num [sampleEnteredPos], by norm_num, ?_⟩
  have h := C6_theorem strategyConfig sampleEnteredPos 1100 false
    (check_exit_signal strategyConfig sampleEnteredPos (some 1100) false)
    ((1100 - sampleEnteredPos.entry_price) / sampleEnteredPos.entry_price * 100)
    rfl rfl (by norm_num [sampleEnteredPos]) (by norm_num)
  exact h.2.1.mpr (by norm_num [sampleEnteredPos, strategyConfig])

/-- C5: in the entry-window handling of a `WATCHING` position the gap check
runs first, and a fetched open whose gap rate
`(open - prev_close) / prev_close * 100` lies strictly outside
`[GAP_THRESHOLD_MIN, GAP_THRESHOLD_MAX]` sends the position to
`DISQUALIFIED` (so it does not reach `ENTRY_PENDING` in this step); and any
`DISQUALIFIED` position is left untouched by every automatic per-tick
operation of the engine — the entry-window, monitoring, daily-loss and EOD
handlers and `confirm_order` — so it never reaches `ENTRY_PENDING`. -/
theorem C5_theorem (cfg : StrategyConfig) (pos : Position) (pd : PriceData)
    (gap_rate : ℚ)
    (hrate : gap_rate = (pd.open_price - pos.prev_close) / pos.prev_close * 100)
    (hpc : 0 < pos.prev_close) (hop : 0 < pd.open_price)
    (hout : gap_rate < cfg.GAP_THRESHOLD_MIN ∨ cfg.GAP_THRESHOLD_MAX < gap_rate) :
    (∀ (positions : List Position) (total_asset : ℚ)
        (sp ep : Option PriceData) (mf : MarketFilterInput)
        (place : Except String String) (now : String),
      (phase_entry_window_watch_step cfg pos positions total_asset (some pd)
          sp ep mf place now).state = PositionState.DISQUALIFIED) ∧
    (∀ q : Position, q.state = PositionState.DISQUALIFIED →
      (∀ stats positions b1 b2 gp sp ep mf place status now,
        phase_entry_window_step cfg q stats positions b1 b2 gp sp ep mf place
          status now = Except.ok (q, stats)) ∧
      (phase_monitoring_cancel_step cfg q = Except.ok q) ∧
      (∀ stats status exit_price eod place now,
        phase_monitoring_position_step cfg q stats status exit_price eod place
          now = (q, stats)) ∧
      (∀ stats, phase_monitoring_daily_loss_step cfg stats q = q) ∧
      (∀ stats status place now,
        phase_eod_closing_step q stats status place now = (q, stats)) ∧
      (∀ stats status now, confirm_order q stats status now = (q, stats, false))) := by
  subst hrate
  constructor
  · intro positions total_asset sp ep mf place now
    have hne : ¬(pos.prev_close ≤ 0 ∨ pd.open_price ≤ 0) := by
      push_neg
      exact ⟨hpc, hop⟩
    have hband : ¬(cfg.GAP_THRESHOLD_MIN ≤
        (pd.open_price - pos.prev_close) / pos.prev_close * 100 ∧
        (pd.open_price - pos.prev_close) / pos.prev_close * 100 ≤
        cfg.GAP_THRESHOLD_MAX) := by
      rcases hout with h | h
      · exact fun hc => absurd hc.1 (not_le.mpr h)
      · exact fun hc => absurd hc.2 (not_le.mpr h)
    have hgap : (check_gap_disqualification cfg pos (some pd)).2 = true ∧
        (check_gap_disqualification cfg pos (some pd)).1.state
          = PositionState.DISQUALIFIED := by
      simp only [check_gap_disqualification]
      rw [if_neg hne, if_neg hband]
      split_ifs <;> exact ⟨rfl, rfl⟩
    simp only [phase_entry_window_watch_step, hgap.1, if_true]
    exact hgap.2
  · intro q hq
    have h1 : q.state ≠ PositionState.WATCHING := by rw [hq]; decide
    have h2 : q.state ≠ PositionState.ENTRY_PENDING := by rw [hq]; decide
    have h3 : q.state ≠ PositionState.ENTERED := by rw [hq]; decide
    have h4 : q.state ≠ PositionState.EXIT_PENDING := by rw [hq]; decide
    refine ⟨fun stats positions b1 b2 gp sp ep mf place status now =>
      entry_window_step_inert cfg q stats positions b1 b2 gp sp ep mf place
        status now h1 h2,
      monitoring_cancel_step_inert cfg q h2,
      fun stats status exit_price eod place now =>
        monitoring_position_step_inert cfg q stats status exit_price eod place
          now h2 h3 h4,
      fun stats => daily_loss_step_inert cfg stats q h1,
      fun stats status place now =>
        eod_closing_step_inert q stats status place now h3 h4,
      fun stats status now =>
        confirm_order_of_not_pending q stats status now h2 h4⟩

/-- C5 witness: a +1% open gap against the `[2%, 5%]` band of the default
configuration disqualifies the watched sample position. -/
theorem C5_witness :
    (phase_entry_window_watch_step strategyConfig sampleWatchPos [] 1000000
        (some samplePd) none none MarketFilterInput.quoteError
        (Except.ok "1") "t").state = PositionState.DISQUALIFIED :=
  (C5_theorem strategyConfig sampleWatchPos samplePd
      ((samplePd.open_price - sampleWatchPos.prev_close) /
        sampleWatchPos.prev_close * 100)
      rfl (by norm_num [sampleWatchPos]) (by norm_num [samplePd])
      (Or.inl (by norm_num [sampleWatchPos, samplePd, strategyConfig]))).1
    [] 1000000 none none MarketFilterInput.quoteError (Except.ok "1") "t"

/-- C8 (counterexample): the claim says a partial fill in either pending
state updates `quantity`/`pendingQuantity`.  On this concrete `EXIT_PENDING`
position a partial sell fill (3 of 5 executed, 2 remaining) leaves the
position entirely unchanged: `quantity` stays 5 and `pending_quantity`
stays 0. -/
theorem C8_counterexample :
    confirm_order sampleExitPos sampleStats (some ⟨3, 1100, 2⟩) "t"
      = (sampleExitPos, sampleStats, false) ∧
    sampleExitPos.quantity = 5 ∧ sampleExitPos.pending_quantity = 0 := by
  refine ⟨rfl, rfl, rfl⟩

/-- C8 (amended): the partial-fill bookkeeping exists only on the entry
side: in `ENTRY_PENDING`, a partial fill updates `quantity`,
`entry_price`, `entry_time` and `pending_quantity` while keeping the
pending state; in `EXIT_PENDING` a partial fill changes nothing at all; and
`confirm_order` changes a position's state only when the status reports
`remain_qty == 0` (full fill). -/
theorem C8_amended :
    (∀ (pos : Position) (stats : TradeStats) (st : OrderStatus) (now : String),
      pos.order_id ≠ "" → pos.state = PositionState.ENTRY_PENDING →
      0 < st.exec_qty → st.remain_qty ≠ 0 →
      confirm_order pos stats (some st) now
        = ({ pos with quantity := st.exec_qty, entry_price := st.exec_price,
                      entry_time := now, pending_quantity := st.remain_qty },
           stats, false)) ∧
    (∀ (pos : Position) (stats : TradeStats) (st : OrderStatus) (now : String),
      pos.state = PositionState.EXIT_PENDING → st.remain_qty ≠ 0 →
      confirm_order pos stats (some st) now = (pos, stats, false)) ∧
    (∀ (pos : Position) (stats : TradeStats) (status : Option OrderStatus)
        (now : String),
      (confirm_order pos stats status now).1.state ≠ pos.state →
      ∃ st, status = some st ∧ st.remain_qty = 0) := by
  refine ⟨?_, ?_, ?_⟩
  · intro pos stats st now h1 h2 h3 h4
    unfold confirm_order
    simp [h1, h2, h3, h4]
  · intro pos stats st now h1 h2
    have hne : pos.state ≠ PositionState.ENTRY_PENDING := by
      rw [h1]; decide
    unfold confirm_order
    by_cases ho : pos.order_id = ""
    · simp [ho]
    · simp [ho, hne, h1, h2]
  · intro pos stats status now h
    cases status with
    | none =>
      exfalso
      apply h
      unfold confirm_order
      split_ifs <;> rfl
    | some st =>
      refine ⟨st, rfl, ?_⟩
      by_contra hrm
      apply h
      unfold confirm_order
      split_ifs <;> simp_all <;> split_ifs <;> simp_all

/-- C8 witness: the amended entry-side clause at a concrete partial fill
(5 executed, 3 remaining). -/
theorem C8_amended_witness :
    confirm_order samplePendingPos sampleStats (some ⟨5, 1000, 3⟩) "t"
      = ({ samplePendingPos with
            quantity := 5
            entry_price := 1000
            entry_time := "t"
            pending_quantity := 3 }, sampleStats, false) :=
  C8_amended.1 samplePendingPos sampleStats ⟨5, 1000, 3⟩ "t" (by decide) rfl
    (by decide) (by decide)

/-- C9 (counterexample): `refresh_positions` — which is not the
manual-override path — moves a terminal `CLOSED` position whose
broker-reported holding is positive back into the non-terminal `ENTERED`
state. -/
theorem C9_counterexample :
    terminalState sampleClosedPos.state = true ∧
    (refresh_position_sync sampleClosedPos
        ⟨"샘플", 5, 1000, 1010, 50, 1⟩).state = PositionState.ENTERED ∧
    terminalState (refresh_position_sync sampleClosedPos
        ⟨"샘플", 5, 1000, 1010, 50, 1⟩).state = false := by
  refine ⟨rfl, rfl, rfl⟩

/-- C9 (amended): a position in a terminal state (`CLOSED`,
`DISQUALIFIED`, `SKIPPED`, `ERROR`) is left untouched by every per-tick
phase handler and by `confirm_order`; besides `manual_buy`/`manual_sell`,
the one remaining re-entry path is `refresh_positions`, which forces any
tracked position with a positive broker-reported holding — terminal or not
— into `ENTERED`, and leaves the state alone otherwise. -/
theorem C9_amended (pos : Position) (h : terminalState pos.state = true) :
    (∀ cfg stats positions b1 b2 gp sp ep mf place status now,
      phase_entry_window_step cfg pos stats positions b1 b2 gp sp ep mf place
        status now = Except.ok (pos, stats)) ∧
    (∀ cfg : StrategyConfig,
      phase_monitoring_cancel_step cfg pos = Except.ok pos) ∧
    (∀ cfg stats status exit_price eod place now,
      phase_monitoring_position_step cfg pos stats status exit_price eod place
        now = (pos, stats)) ∧
    (∀ cfg stats, phase_monitoring_daily_loss_step cfg stats pos = pos) ∧
    (∀ stats status place now,
      phase_eod_closing_step pos stats status place now = (pos, stats)) ∧
    (∀ stats status now, confirm_order pos stats status now = (pos, stats, false)) ∧
    (∀ holding : Holding, 0 < holding.quantity →
      (refresh_position_sync pos holding).state = PositionState.ENTERED) ∧
    (∀ holding : Holding, holding.quantity ≤ 0 →
      (refresh_position_sync pos holding).state = pos.state) := by
  have h1 : pos.state ≠ PositionState.WATCHING := fun hw => by
    rw [hw] at h; exact absurd h (by decide)
  have h2 : pos.state ≠ PositionState.ENTRY_PENDING := fun hw => by
    rw [hw] at h; exact absurd h (by decide)
  have h3 : pos.state ≠ PositionState.ENTERED := fun hw => by
    rw [hw] at h; exact absurd h (by decide)
  have h4 : pos.state ≠ PositionState.EXIT_PENDING := fun hw => by
    rw [hw] at h; exact absurd h (by decide)
  refine ⟨fun cfg stats positions b1 b2 gp sp ep mf place status now =>
      entry_window_step_inert cfg pos stats positions b1 b2 gp sp ep mf place
        status now h1 h2,
    fun cfg => monitoring_cancel_step_inert cfg pos h2,
    fun cfg stats status exit_price eod place now =>
      monitoring_position_step_inert cfg pos stats status exit_price eod place
        now h2 h3 h4,
    fun cfg stats => daily_loss_step_inert cfg stats pos h1,
    fun stats status place now =>
      eod_closing_step_inert pos stats status place now h3 h4,
    fun stats status now =>
      confirm_order_of_not_pending pos stats status now h2 h4,
    ?_, ?_⟩
  · intro holding hq
    unfold refresh_position_sync
    simp [hq, h3, h4]
  · intro holding hq
    unfold refresh_position_sync
    simp [not_lt.mpr hq]

/-- C9 witness: the amended theorem at the concrete closed position — the
monitoring cancel step leaves it alone, and a positive holding revives it
to `ENTERED` through the refresh path. -/
theorem C9_amended_witness :
    phase_monitoring_cancel_step strategyConfig sampleClosedPos
      = Except.ok sampleClosedPos ∧
    (refresh_position_sync sampleClosedPos
        ⟨"기타", 7, 1000, 1010, 70, 1⟩).state = PositionState.ENTERED :=
  ⟨(C9_amended sampleClosedPos rfl).2.1 strategyConfig,
   (C9_amended sampleClosedPos rfl).2.2.2.2.2.2.1
     ⟨"기타", 7, 1000, 1010, 70, 1⟩ (by decide)⟩

/-- C7: for a fully filled buy of Q shares at price P1 confirmed by
`confirm_order`, followed by an exit order and a fully filled sell of the
same Q shares at price P2, the realized P&L computed at the sell
confirmation is `(P2 - P1) * Q`, `total_trades` increments by exactly one,
exactly one of `winning_trades`/`losing_trades` increments consistently
with the sign of the P&L (ties counted as wins, matching `pnl >= 0` in the
source), and the P&L is added to the cumulative `daily_pnl`. -/
theorem C7_theorem (pos : Position) (stats : TradeStats) (P1 P2 : ℚ) (Q : ℤ)
    (now1 now2 reason order_no : String)
    (buy : Position × TradeStats × Bool)
    (ex : Position × Option OrderReq × Bool)
    (sell : Position × TradeStats × Bool)
    (hbuy : buy = confirm_order pos stats (some ⟨Q, P1, 0⟩) now1)
    (hex : ex = execute_exit buy.1 reason (Except.ok order_no))
    (hsell : sell = confirm_order ex.1 buy.2.1 (some ⟨Q, P2, 0⟩) now2)
    (hstate : pos.state = PositionState.ENTRY_PENDING)
    (hoid : pos.order_id ≠ "") (hQ : 0 < Q) (hno : order_no ≠ "") :
    buy.1.state = PositionState.ENTERED ∧
    buy.1.entry_price = P1 ∧ buy.1.quantity = Q ∧
    ex.2.1 = some ⟨"sell", Q, 0⟩ ∧
    sell.1.state = PositionState.CLOSED ∧
    sell.1.unrealized_pnl = (P2 - P1) * (Q : ℚ) ∧
    sell.2.1.total_trades = stats.total_trades + 1 ∧
    sell.2.1.daily_pnl = stats.daily_pnl + (P2 - P1) * (Q : ℚ) ∧
    (0 ≤ (P2 - P1) * (Q : ℚ) →
      sell.2.1.winning_trades = stats.winning_trades + 1 ∧
      sell.2.1.losing_trades = stats.losing_trades) ∧
    ((P2 - P1) * (Q : ℚ) < 0 →
      sell.2.1.losing_trades = stats.losing_trades + 1 ∧
      sell.2.1.winning_trades = stats.winning_trades) := by
  have hbuyeq : buy = ({ pos with
      quantity := Q
      entry_price := P1
      entry_time := now1
      pending_quantity := 0
      state := PositionState.ENTERED }, stats, true) := by
    rw [hbuy]
    unfold confirm_order
    simp [hoid, hstate, hQ]
  have hexeq : ex = ({ pos with
      quantity := Q
      entry_price := P1
      entry_time := now1
      pending_quantity := 0
      state := PositionState.EXIT_PENDING
      exit_reason := reason
      order_id := order_no }, some ⟨"sell", Q, 0⟩, true) := by
    rw [hex, hbuyeq]
    unfold execute_exit
    simp [not_le.mpr hQ]
  subst hsell
  rw [hbuyeq, hexeq]
  refine ⟨rfl, rfl, rfl, rfl, ?_⟩
  simp only [confirm_order]
  rw [if_neg hno,
    if_neg (show ¬(PositionState.EXIT_PENDING = PositionState.ENTRY_PENDING) by decide)]
  simp only [if_true]
  refine ⟨trivial, trivial, trivial, trivial, ?_, ?_⟩
  · intro hle
    exact ⟨by simp [ge_iff_le, hle], by simp [ge_iff_le, hle]⟩
  · intro hlt
    exact ⟨by simp [ge_iff_le, not_le.mpr hlt], by simp [ge_iff_le, not_le.mpr hlt]⟩

/-- C7 witness: buy 10 shares at 1000, sell all 10 at 1100 — realized P&L
1000, one more total trade, counted as a win, added to the daily P&L. -/
theorem C7_witness :
    (confirm_order
        (execute_exit
          (confirm_order samplePendingPos sampleStats (some ⟨10, 1000, 0⟩)
            "t1").1 "TP" (Except.ok "0002")).1
        (confirm_order samplePendingPos sampleStats (some ⟨10, 1000, 0⟩)
          "t1").2.1
        (some ⟨10, 1100, 0⟩) "t2").1.state = PositionState.CLOSED ∧
    (confirm_order
        (execute_exit
          (confirm_order samplePendingPos sampleStats (some ⟨10, 1000, 0⟩)
            "t1").1 "TP" (Except.ok "0002")).1
        (confirm_order samplePendingPos sampleStats (some ⟨10, 1000, 0⟩)
          "t1").2.1
        (some ⟨10, 1100, 0⟩) "t2").1.unrealized_pnl = (1100 - 1000) * (10 : ℚ) ∧
    (confirm_order
        (execute_exit
          (confirm_order samplePendingPos sampleStats (some ⟨10, 1000, 0⟩)
            "t1").1 "TP" (Except.ok "0002")).1
        (confirm_order samplePendingPos sampleStats (some ⟨10, 1000, 0⟩)
          "t1").2.1
        (some ⟨10, 1100, 0⟩) "t2").2.1.total_trades
      = sampleStats.total_trades + 1 := by
  have h := C7_theorem samplePendingPos sampleStats 1000 1100 10 "t1" "t2"
    "TP" "0002"
    (confirm_order samplePendingPos sampleStats (some ⟨10, 1000, 0⟩) "t1")
    (execute_exit
      (confirm_order samplePendingPos sampleStats (some ⟨10, 1000, 0⟩)
        "t1").1 "TP" (Except.ok "0002"))
    (confirm_order
      (execute_exit
        (confirm_order samplePendingPos sampleStats (some ⟨10, 1000, 0⟩)
          "t1").1 "TP" (Except.ok "0002")).1
      (confirm_order samplePendingPos sampleStats (some ⟨10, 1000, 0⟩)
        "t1").2.1
      (some ⟨10, 1100, 0⟩) "t2")
    rfl rfl rfl rfl (by decide) (by decide) (by decide)
  exact ⟨h.2.2.2.2.1, h.2.2.2.2.2.1, h.2.2.2.2.2.2.1⟩

/-- C2 (counterexample): the claim says both `execute_entry` and
`execute_exit` transition a position to `SKIPPED` once the retry budget
(`ORDER_RETRY_COUNT = 3`) is exhausted, the state otherwise being left
unchanged.  On this concrete `ENTERED` position whose `retry_count` is
already 3, a failed sell submission raises `retry_count` to 4 — past the
budget — yet the position stays `EXIT_PENDING`, never `SKIPPED` (and its
state was changed from `ENTERED` before submission, not left unchanged). -/
theorem C2_counterexample :
    strategyConfig.ORDER_RETRY_COUNT = 3 ∧
    (execute_exit { sampleEnteredPos with retry_count := 3 } "SL"
        (Except.error "주문 실패")).1.retry_count = 4 ∧
    (execute_exit { sampleEnteredPos with retry_count := 3 } "SL"
        (Except.error "주문 실패")).1.state = PositionState.EXIT_PENDING ∧
    (execute_exit { sampleEnteredPos with retry_count := 3 } "SL"
        (Except.error "주문 실패")).1.state ≠ PositionState.SKIPPED := by
  refine ⟨rfl, rfl, rfl, by decide⟩

/-- C2 (amended): in `execute_entry`, once submission is reached the state
has already been set to `ENTRY_PENDING`; a submission failure increments
`retry_count` and moves the position to `SKIPPED` exactly when the
incremented count reaches `ORDER_RETRY_COUNT`, and otherwise leaves it in
`ENTRY_PENDING` (not in its pre-call state); a successful submission
records `order_id`, `pending_quantity` and `order_time`.  `execute_exit`
always submits a market order (price 0) for the full held quantity; on
failure it increments `retry_count` but stays `EXIT_PENDING` — it never
transitions to `SKIPPED`, with no retry-budget check — and on success it
records only `order_id` (no `pending_quantity`, no `order_time`). -/
theorem C2_amended (cfg : StrategyConfig) :
    (∀ (pos : Position) (positions : List Position) (total_asset : ℚ)
        (pd : PriceData) (e order_no now : String),
      0 < pd.current_price →
      entry_order_price cfg pos pd ≠ 0 →
      0 < entry_quantity cfg pos total_asset pd →
      ((positions.filter
          (fun p => p.state = PositionState.ENTERED)).length : ℤ)
        < cfg.MAX_POSITIONS →
      (execute_entry cfg pos positions total_asset (some pd)
          (Except.error e) now).1.retry_count = pos.retry_count + 1 ∧
      (execute_entry cfg pos positions total_asset (some pd)
          (Except.error e) now).1.state
        = (if cfg.ORDER_RETRY_COUNT ≤ pos.retry_count + 1 then
            PositionState.SKIPPED
          else PositionState.ENTRY_PENDING) ∧
      (execute_entry cfg pos positions total_asset (some pd)
          (Except.ok order_no) now).1.state = PositionState.ENTRY_PENDING ∧
      (execute_entry cfg pos positions total_asset (some pd)
          (Except.ok order_no) now).1.order_id = order_no ∧
      (execute_entry cfg pos positions total_asset (some pd)
          (Except.ok order_no) now).1.pending_quantity
        = entry_quantity cfg pos total_asset pd ∧
      (execute_entry cfg pos positions total_asset (some pd)
          (Except.ok order_no) now).1.order_time = now) ∧
    (∀ (pos : Position) (reason e order_no : String),
      0 < pos.quantity →
      (execute_exit pos reason (Except.error e)).2.1
        = some ⟨"sell", pos.quantity, 0⟩ ∧
      (execute_exit pos reason (Except.error e)).1.state
        = PositionState.EXIT_PENDING ∧
      (execute_exit pos reason (Except.error e)).1.retry_count
        = pos.retry_count + 1 ∧
      (execute_exit pos reason (Except.ok order_no)).1
        = { pos with
            state := PositionState.EXIT_PENDING
            exit_reason := reason
            order_id := order_no }) := by
  constructor
  · intro pos positions total_asset pd e order_no now h1 h2 h3 h4
    simp only [execute_entry]
    simp only [if_neg (not_le.mpr h1), if_neg h2, if_neg (not_le.mpr h3),
      if_neg (not_le.mpr h4)]
    by_cases hb : cfg.ORDER_RETRY_COUNT ≤ pos.retry_count + 1
    · simp [ge_iff_le, hb]
    · simp [ge_iff_le, hb]
  · intro pos reason e order_no hq
    simp only [execute_exit, if_neg (not_le.mpr hq)]
    refine ⟨?_, ?_, ?_, ?_⟩ <;> trivial

/-- C2 witness: the amended theorem at a concrete watched position with
1,000,000 total assets (order price 1000, quantity 200) and at the sample
entered position (10 held shares). -/
theorem C2_witness :
    (execute_entry strategyConfig sampleWatchPos [] 1000000
        (some ⟨1005, 1020, 1006, 1000⟩) (Except.ok "0099") "t").1.order_id
      = "0099" ∧
    (execute_entry strategyConfig sampleWatchPos [] 1000000
        (some ⟨1005, 1020, 1006, 1000⟩) (Except.ok "0099") "t").1.pending_quantity
      = entry_quantity strategyConfig sampleWatchPos 1000000
          ⟨1005, 1020, 1006, 1000⟩ ∧
    (execute_exit sampleEnteredPos "SL" (Except.error "err")).2.1
      = some ⟨"sell", sampleEnteredPos.quantity, 0⟩ := by
  have h1 := (C2_amended strategyConfig).1 sampleWatchPos [] 1000000
    ⟨1005, 1020, 1006, 1000⟩ "err" "0099" "t" (by norm_num) (by decide)
    (by norm_num [entry_quantity, entry_order_price, pyInt, strategyConfig,
      sampleWatchPos])
    (by decide)
  have h2 := (C2_amended strategyConfig).2 sampleEnteredPos "SL" "err" "0099"
    (by decide)
  exact ⟨h1.2.2.2.1, h1.2.2.2.2.1, h2.1⟩

theorem check_gap_fields (cfg : StrategyConfig) (pos : Position)
    (price : Option PriceData) :
    (check_gap_disqualification cfg pos price).1.quantity = pos.quantity ∧
    (check_gap_disqualification cfg pos price).1.pending_quantity
      = pos.pending_quantity := by
  cases price with
  | none => exact ⟨rfl, rfl⟩
  | some pd =>
    simp only [check_gap_disqualification]
    split_ifs <;> exact ⟨rfl, rfl⟩

theorem check_entry_signal_fields (cfg : StrategyConfig) (pos : Position)
    (price : Option PriceData) (mf : MarketFilterInput) :
    (check_entry_signal cfg pos price mf).1.quantity = pos.quantity ∧
    (check_entry_signal cfg pos price mf).1.pending_quantity
      = pos.pending_quantity ∧
    (check_entry_signal cfg pos price mf).1.state = pos.state := by
  cases price with
  | none => exact ⟨rfl, rfl, rfl⟩
  | some pd =>
    simp only [check_entry_signal]
    split_ifs <;> exact ⟨rfl, rfl, rfl⟩

theorem check_exit_signal_fields (cfg : StrategyConfig) (pos : Position)
    (price : Option ℚ) (eod_reached : Bool) :
    (check_exit_signal cfg pos price eod_reached).1.quantity = pos.quantity ∧
    (check_exit_signal cfg pos price eod_reached).1.pending_quantity
      = pos.pending_quantity ∧
    (check_exit_signal cfg pos price eod_reached).1.state = pos.state := by
  cases price with
  | none => exact ⟨rfl, rfl, rfl⟩
  | some current =>
    simp only [check_exit_signal]
    split_ifs <;> exact ⟨rfl, rfl, rfl⟩

theorem confirm_order_inv (pos : Position) (stats : TradeStats)
    (status : Option OrderStatus) (now : String)
    (hinv : PosQuantityInv pos) (hst : StatusNonneg status) :
    PosQuantityInv (confirm_order pos stats status now).1 := by
  obtain ⟨hq0, hp0, hs0⟩ := hinv
  cases status with
  | none =>
    simp only [confirm_order]
    split_ifs <;> exact ⟨hq0, hp0, hs0⟩
  | some st =>
    obtain ⟨he, hr⟩ := hst st rfl
    simp only [confirm_order]
    split_ifs <;> simp_all [PosQuantityInv]

theorem execute_entry_inv (cfg : StrategyConfig) (pos : Position)
    (positions : List Position) (total_asset : ℚ) (price : Option PriceData)
    (place : Except String String) (now : String)
    (hq : pos.quantity = 0) (hp : 0 ≤ pos.pending_quantity) :
    PosQuantityInv
      (execute_entry cfg pos positions total_asset price place now).1 := by
  cases price with
  | none => simp_all [execute_entry, PosQuantityInv]
  | some pd =>
    cases place <;> simp only [execute_entry] <;> split_ifs <;>
      simp_all [PosQuantityInv] <;> omega

theorem execute_exit_inv (pos : Position) (reason : String)
    (place : Except String String) (hinv : PosQuantityInv pos) :
    PosQuantityInv (execute_exit pos reason place).1 := by
  obtain ⟨hq0, hp0, hs0⟩ := hinv
  cases place <;> simp only [execute_exit] <;> split_ifs <;>
    simp_all [PosQuantityInv]

theorem watch_step_inv (cfg : StrategyConfig) (pos : Position)
    (positions : List Position) (total_asset : ℚ)
    (gp sp ep : Option PriceData) (mf : MarketFilterInput)
    (place : Except String String) (now : String)
    (hq : pos.quantity = 0) (hp : 0 ≤ pos.pending_quantity) :
    PosQuantityInv
      (phase_entry_window_watch_step cfg pos positions total_asset gp sp ep mf
        place now) := by
  obtain ⟨hgq, hgp⟩ := check_gap_fields cfg pos gp
  obtain ⟨hsq, hsp, -⟩ :=
    check_entry_signal_fields cfg (check_gap_disqualification cfg pos gp).1 sp mf
  simp only [phase_entry_window_watch_step]
  split_ifs with h1 h2
  · refine ⟨?_, ?_, ?_⟩
    · rw [hgq, hq]
    · rw [hgp]; exact hp
    · intro hlt
      rw [hgq, hq] at hlt
      exact absurd hlt (lt_irrefl 0)
  · exact execute_entry_inv cfg _ positions total_asset ep place now
      (by rw [hsq, hgq, hq]) (by rw [hsp, hgp]; exact hp)
  · refine ⟨?_, ?_, ?_⟩
    · rw [hsq, hgq, hq]
    · rw [hsp, hgp]; exact hp
    · intro hlt
      rw [hsq, hgq, hq] at hlt
      exact absurd hlt (lt_irrefl 0)

/-- C1 (counterexample): the claimed invariant `quantity > 0 → state ∈
{ENTERED, EXIT_PENDING, CLOSED}` is broken by a partial entry fill:
`confirm_order` on an `ENTRY_PENDING` position whose order executed 5
shares with 3 remaining records `quantity = 5 > 0` while the state stays
`ENTRY_PENDING`. -/
theorem C1_counterexample :
    0 < (confirm_order samplePendingPos sampleStats (some ⟨5, 1200, 3⟩)
        "t").1.quantity ∧
    (confirm_order samplePendingPos sampleStats (some ⟨5, 1200, 3⟩)
        "t").1.state = PositionState.ENTRY_PENDING ∧
    (confirm_order samplePendingPos sampleStats (some ⟨5, 1200, 3⟩)
        "t").1.state ≠ PositionState.ENTERED ∧
    (confirm_order samplePendingPos sampleStats (some ⟨5, 1200, 3⟩)
        "t").1.state ≠ PositionState.EXIT_PENDING ∧
    (confirm_order samplePendingPos sampleStats (some ⟨5, 1200, 3⟩)
        "t").1.state ≠ PositionState.CLOSED := by
  exact ⟨by decide, rfl, by decide, by decide, by decide⟩

/-- C1 (amended): with `ENTRY_PENDING` added to the allowed states —
`quantity ≥ 0`, `pendingQuantity ≥ 0`, and `quantity > 0` implies
`state ∈ {ENTRY_PENDING, ENTERED, EXIT_PENDING, CLOSED}` — the invariant is
preserved by every modelled operation of the engine, given broker answers
with non-negative quantities: `confirm_order`, `execute_entry` and the
entry-window handling of a `WATCHING` position, `execute_exit`, the
signal/gap checks, the whole entry-window step (with the 09:30 cancel
comparison false, as it always is inside the 09:00–09:03 window of the
default schedule), the monitoring and EOD steps, the daily-loss breaker,
`refresh_positions`, and the manual-override updates. -/
theorem C1_amended (pos : Position) (hinv : PosQuantityInv pos) :
    (∀ stats status now, StatusNonneg status →
      PosQuantityInv (confirm_order pos stats status now).1) ∧
    (∀ cfg positions total_asset price place now,
      pos.state = PositionState.WATCHING →
      PosQuantityInv
        (execute_entry cfg pos positions total_asset price place now).1) ∧
    (∀ reason place, PosQuantityInv (execute_exit pos reason place).1) ∧
    (∀ cfg price eod, PosQuantityInv (check_exit_signal cfg pos price eod).1) ∧
    (∀ cfg price mf, PosQuantityInv (check_entry_signal cfg pos price mf).1) ∧
    (∀ cfg price, pos.state = PositionState.WATCHING →
      PosQuantityInv (check_gap_disqualification cfg pos price).1) ∧
    (∀ cfg positions total_asset gp sp ep mf place now,
      pos.state = PositionState.WATCHING →
      PosQuantityInv
        (phase_entry_window_watch_step cfg pos positions total_asset gp sp ep
          mf place now)) ∧
    (∀ cfg stats positions b2 gp sp ep mf place status now result,
      StatusNonneg status →
      phase_entry_window_step cfg pos stats positions false b2 gp sp ep mf
        place status now = Except.ok result →
      PosQuantityInv result.1) ∧
    (∀ cfg stats status exit_price eod place now, StatusNonneg status →
      PosQuantityInv
        (phase_monitoring_position_step cfg pos stats status exit_price eod
          place now).1) ∧
    (∀ cfg stats, PosQuantityInv (phase_monitoring_daily_loss_step cfg stats pos)) ∧
    (∀ stats status place now, StatusNonneg status →
      PosQuantityInv (phase_eod_closing_step pos stats status place now).1) ∧
    (∀ holding : Holding, 0 ≤ holding.quantity →
      PosQuantityInv (refresh_position_sync pos holding)) ∧
    (∀ order_no q, 0 ≤ q →
      PosQuantityInv (manual_buy_position_update pos order_no q)) ∧
    (∀ order_no, PosQuantityInv (manual_sell_position_update pos order_no)) := by
  have hq_of_watch : pos.state = PositionState.WATCHING → pos.quantity = 0 := by
    intro hw
    by_contra hne
    have hlt : 0 < pos.quantity := lt_of_le_of_ne hinv.1 (Ne.symm hne)
    rcases hinv.2.2 hlt with h' | h' | h' | h' <;> rw [hw] at h' <;>
      exact absurd h' (by decide)
  refine ⟨?_, ?_, ?_, ?_, ?_, ?_, ?_, ?_, ?_, ?_, ?_, ?_, ?_, ?_⟩
  · intro stats status now hst
    exact confirm_order_inv pos stats status now hinv hst
  · intro cfg positions total_asset price place now hw
    exact execute_entry_inv cfg pos positions total_asset price place now
      (hq_of_watch hw) hinv.2.1
  · intro reason place
    exact execute_exit_inv pos reason place hinv
  · intro cfg price eod
    obtain ⟨hsq, hsp, hss⟩ := check_exit_signal_fields cfg pos price eod
    refine ⟨?_, ?_, ?_⟩
    · rw [hsq]; exact hinv.1
    · rw [hsp]; exact hinv.2.1
    · intro hlt
      rw [hsq] at hlt
      rw [hss]
      exact hinv.2.2 hlt
  · intro cfg price mf
    obtain ⟨hsq, hsp, hss⟩ := check_entry_signal_fields cfg pos price mf
    refine ⟨?_, ?_, ?_⟩
    · rw [hsq]; exact hinv.1
    · rw [hsp]; exact hinv.2.1
    · intro hlt
      rw [hsq] at hlt
      rw [hss]
      exact hinv.2.2 hlt
  · intro cfg price hw
    obtain ⟨hgq, hgp⟩ := check_gap_fields cfg pos price
    refine ⟨?_, ?_, ?_⟩
    · rw [hgq]; exact hinv.1
    · rw [hgp]; exact hinv.2.1
    · intro hlt
      rw [hgq, hq_of_watch hw] at hlt
      exact absurd hlt (lt_irrefl 0)
  · intro cfg positions total_asset gp sp ep mf place now hw
    exact watch_step_inv cfg pos positions total_asset gp sp ep mf place now
      (hq_of_watch hw) hinv.2.1
  · intro cfg stats positions b2 gp sp ep mf place status now result hst hok
    by_cases hw : pos.state = PositionState.WATCHING
    · rw [phase_entry_window_step, if_pos hw] at hok
      injection hok with h
      rw [← h]
      exact watch_step_inv cfg pos positions stats.total_asset gp sp ep mf
        place now (hq_of_watch hw) hinv.2.1
    · by_cases hep : pos.state = PositionState.ENTRY_PENDING
      · rw [phase_entry_window_step, if_neg hw, if_pos hep] at hok
        simp only [Bool.false_eq_true, false_and, if_false] at hok
        cases b2 with
        | true => simp at hok
        | false =>
          simp only [Bool.false_eq_true, if_false] at hok
          injection hok with h
          rw [← h]
          exact confirm_order_inv pos stats status now hinv hst
      · rw [phase_entry_window_step, if_neg hw, if_neg hep] at hok
        injection hok with h
        rw [← h]
        exact hinv
  · intro cfg stats status exit_price eod place now hst
    simp only [phase_monitoring_position_step]
    split_ifs with h1 h2 h3 h4
    · exact confirm_order_inv pos stats status now hinv hst
    · obtain ⟨hsq, hsp, hss⟩ := check_exit_signal_fields cfg pos exit_price eod
      refine execute_exit_inv _ _ _ ⟨?_, ?_, ?_⟩
      · rw [hsq]; exact hinv.1
      · rw [hsp]; exact hinv.2.1
      · intro hlt
        rw [hsq] at hlt
        rw [hss]
        exact hinv.2.2 hlt
    · obtain ⟨hsq, hsp, hss⟩ := check_exit_signal_fields cfg pos exit_price eod
      refine ⟨?_, ?_, ?_⟩
      · rw [hsq]; exact hinv.1
      · rw [hsp]; exact hinv.2.1
      · intro hlt
        rw [hsq] at hlt
        rw [hss]
        exact hinv.2.2 hlt
    · exact confirm_order_inv pos stats status now hinv hst
    · exact hinv
  · intro cfg stats
    simp only [phase_monitoring_daily_loss_step]
    split_ifs with h
    · refine ⟨hinv.1, hinv.2.1, ?_⟩
      intro hlt
      rw [hq_of_watch h.2.2] at hlt
      exact absurd hlt (lt_irrefl 0)
    · exact hinv
  · intro stats status place now hst
    simp only [phase_eod_closing_step]
    split_ifs with h1 h2
    · exact execute_exit_inv pos "EOD" place hinv
    · exact confirm_order_inv pos stats status now hinv hst
    · exact hinv
  · intro holding hh
    simp only [refresh_position_sync]
    split_ifs with h
    · exact ⟨hh, hinv.2.1, fun _ => Or.inr (Or.inl rfl)⟩
    · refine ⟨hh, hinv.2.1, ?_⟩
      intro hlt
      push_neg at h
      by_cases hA : pos.state = PositionState.ENTERED
      · exact Or.inr (Or.inl hA)
      · exact Or.inr (Or.inr (Or.inl (h hlt hA)))
  · intro order_no q hq
    exact ⟨hinv.1, hq, fun _ => Or.inl rfl⟩
  · intro order_no
    exact ⟨hinv.1, hinv.2.1, fun _ => Or.inr (Or.inr (Or.inl rfl))⟩

/-- C1 witness: the amended invariant checked at the sample pending
position through a concrete partial fill. -/
theorem C1_amended_witness :
    PosQuantityInv
      (confirm_order samplePendingPos sampleStats (some ⟨5, 1300, 3⟩)
        "t").1 :=
  (C1_amended samplePendingPos
      ⟨by decide, by decide, fun h => absurd h (by decide)⟩).1
    sampleStats (some ⟨5, 1300, 3⟩) "t"
    (fun st hst => by
      cases hst
      exact ⟨by decide, by decide⟩)
